import Mathlib

/-!
Shallow embedding of the GMM repository (generate_html.py, macro_report_full.py,
macro_update_scheduler.py) and proofs about its return-calculation, fetching,
normalization, formatting, memoization and scheduling logic.

Timestamps are modelled as integers counting days in the proleptic Gregorian
calendar (day 0 = 1970-01-01), which is the granularity at which the series
indices of the scripts live.  Numeric observation values are rationals; the
scripts drop NaN values from every fetched series before any computation
(`.dropna()`), so a fetched series carries plain numeric values, and an absent
or undefined value (Python NaN produced by the return calculator) is `none`.
-/

namespace GMM

/-! ## Calendar arithmetic

`datetime(end_date.year, 1, 1)` in the horizon tables needs the year of a day
number and the day number of January 1st of a year.  These are the standard
civil-calendar conversions on the proleptic Gregorian calendar, written with
floor division. -/

/-- Day number (days since 1970-01-01, possibly negative) of the civil date
`y-m-d` in the proleptic Gregorian calendar. -/
def daysFromCivil (y m d : Int) : Int :=
  let y' := y - (if m ≤ 2 then 1 else 0)
  let era := Int.fdiv y' 400
  let yoe := y' - era * 400
  let doy := Int.fdiv (153 * (m + (if 2 < m then -3 else 9)) + 2) 5 + d - 1
  let doe := yoe * 365 + Int.fdiv yoe 4 - Int.fdiv yoe 100 + doy
  era * 146097 + doe - 719468

/-- Civil-calendar year of a day number. -/
def civilYear (z : Int) : Int :=
  let z' := z + 719468
  let era := Int.fdiv z' 146097
  let doe := z' - era * 146097
  let yoe := Int.fdiv (doe - Int.fdiv doe 1460 + Int.fdiv doe 36524 - Int.fdiv doe 146096) 365
  let y := yoe + era * 400
  let doy := doe - (365 * yoe + Int.fdiv yoe 4 - Int.fdiv yoe 100)
  let mp := Int.fdiv (5 * doy + 2) 153
  let m := mp + (if mp < 10 then 3 else -9)
  y + (if m ≤ 2 then 1 else 0)

/-- Embeds `datetime(end_date.year, 1, 1)`: January 1st of the year of `z`. -/
def janFirst (z : Int) : Int := daysFromCivil (civilYear z) 1 1

/-! ## Data model -/

/-- One observation: (timestamp in days, numeric value). -/
abbrev Obs := Int × ℚ

/-- An observation sequence, ordered by timestamp (pandas Series post-dropna). -/
abbrev Series := List Obs

/-- Strictly increasing timestamps, the data-model invariant of an
observation sequence. -/
def StrictlyTimed (s : Series) : Prop :=
  s.Pairwise (fun p q => p.1 < q.1)

instance (s : Series) : Decidable (StrictlyTimed s) :=
  inferInstanceAs (Decidable (s.Pairwise _))

/-- Embeds `s.iloc[-1] if not s.empty else np.nan`: the value of the last
observation of the whole series. -/
def lastVal (s : Series) : Option ℚ := s.getLast?.map (fun p => p.2)

/-- Embeds `s.loc[s.index <= t].iloc[-1]` guarded by `mask.any()`: the last
observation whose timestamp is at most `t`, as an observation. -/
def lastObsLE (s : Series) (t : Int) : Option Obs :=
  (s.filter (fun p => decide (p.1 ≤ t))).getLast?

/-- The value of the last observation with timestamp at most `t`. -/
def lastValLE (s : Series) (t : Int) : Option ℚ :=
  (lastObsLE s t).map (fun p => p.2)

/-- Embeds `series.loc[(series.index >= a) & (series.index <= b)].iloc[0]`
guarded by emptiness: the value of the first observation inside `[a, b]`. -/
def firstValInWindow (s : Series) (a b : Int) : Option ℚ :=
  ((s.filter (fun p => decide (a ≤ p.1) && decide (p.1 ≤ b))).head?).map (fun p => p.2)

/-! ## Return arithmetic (generate_html.py, pct_return / diff_return) -/

/-- Embeds `pct_return(a, b)`: NaN if either operand is NaN or `b == 0`,
otherwise `(a/b - 1.0) * 100.0`. -/
def pct_return (a b : Option ℚ) : Option ℚ :=
  match a, b with
  | some a, some b => if b = 0 then none else some ((a / b - 1) * 100)
  | _, _ => none

/-- Embeds `diff_return(a, b)`: NaN if either operand is NaN, else `a - b`. -/
def diff_return (a b : Option ℚ) : Option ℚ :=
  match a, b with
  | some a, some b => some (a - b)
  | _, _ => none

/-! ## Horizon tables -/

/-- Embeds the `horizons` dict of `compute_returns` in generate_html.py. -/
def horizonsHtml (e : Int) : List (String × Int) :=
  [("YTD", janFirst e), ("1M", e - 30), ("3M", e - 90),
   ("1Y", e - 365), ("3Y", e - 3 * 365), ("5Y", e - 5 * 365)]

/-- Embeds the `horizons` dict of `compute_returns_for_series` in
macro_report_full.py (adds a 10Y horizon). -/
def horizonsFull (e : Int) : List (String × Int) :=
  [("YTD", janFirst e), ("1M", e - 30), ("3M", e - 90),
   ("1Y", e - 365), ("3Y", e - 365 * 3), ("5Y", e - 365 * 5),
   ("10Y", e - 365 * 10)]

/-! ## Return calculators -/

/-- Embeds `compute_returns(s, end_date, diff_mode)` of generate_html.py:
for each horizon, `s0` is the last observation at or before the boundary
(NaN when the mask is empty), `s1` is the last observation of `s` (NaN when
`s` is empty), and the entry is `diff_return(s1, s0)` in difference mode,
`pct_return(s1, s0)` otherwise. -/
def compute_returns (s : Series) (e : Int) (diffMode : Bool) : List (String × Option ℚ) :=
  (horizonsHtml e).map (fun lb =>
    let s0 := lastValLE s lb.2
    let s1 := lastVal s
    (lb.1, if diffMode then diff_return s1 s0 else pct_return s1 s0))

/-- The per-horizon body of `compute_returns_for_series` (macro_report_full.py)
for a non-empty series: `sub` is the series restricted to `[b, e]`; if `sub`
is empty the result is NaN; otherwise `start_val = sub.iloc[0]`, the result is
NaN when computing percentages with `start_val == 0`, else the difference
`end_val - start_val` or the percentage `(end_val / start_val - 1) * 100`. -/
def fullHorizonVal (s : Series) (e : Int) (useDifference : Bool) (b : Int) : Option ℚ :=
  match firstValInWindow s b e with
  | none => none
  | some startVal =>
    if !useDifference && decide (startVal = 0) then none
    else
      let endVal := (lastVal s).getD 0
      if useDifference then some (endVal - startVal)
      else some ((endVal / startVal - 1) * 100)

/-- Embeds `compute_returns_for_series(series, end_date, use_difference)` of
macro_report_full.py: all-NaN for an empty series, otherwise the per-horizon
values of `fullHorizonVal` (note: `end_val = series.iloc[-1]`, the last
observation of the whole series). -/
def compute_returns_for_series (s : Series) (e : Int) (useDifference : Bool) :
    List (String × Option ℚ) :=
  if s.isEmpty then (horizonsFull e).map (fun lb => (lb.1, none))
  else (horizonsFull e).map (fun lb => (lb.1, fullHorizonVal s e useDifference lb.2))

/-! ## Normalization for charting

Both scripts rescale a series so its first value is 100.  Outputs carry
`Option ℚ` values because the zero-base branch produces an all-NaN series
(`pd.Series(index=s.index, dtype=float)` in generate_html.py,
`series * np.nan` in macro_report_full.py), keeping the original index. -/

/-- Embeds `normalized_100(s)` of generate_html.py.  Input series are fetched
post-`dropna()`, so the `pd.isna(base)` guard of the source is vacuous here. -/
def normalized_100 (s : Series) : List (Int × Option ℚ) :=
  match s with
  | [] => []
  | (_, base) :: _ =>
    if base = 0 then s.map (fun p => (p.1, none))
    else s.map (fun p => (p.1, some (p.2 / base * 100)))

/-- Embeds `compute_normalized(series)` of macro_report_full.py (identical to
`normalized_100` except that it has no NaN guard on the base, which cannot
fire on a post-dropna series anyway). -/
def compute_normalized (s : Series) : List (Int × Option ℚ) :=
  match s with
  | [] => []
  | (_, base) :: _ =>
    if base = 0 then s.map (fun p => (p.1, none))
    else s.map (fun p => (p.1, some (p.2 / base * 100)))

/-! ## Python string primitives

The scripts use `ident.split(":", 1)`, `ident.split(":")` and
`ident.upper()`.  These are embedded as structural recursions over the
character list of the string, mirroring the Python semantics for a
single-character separator. -/

/-- Split a character list at the first occurrence of `sep`; `none` when `sep`
does not occur. -/
def splitFirstAux (sep : Char) : List Char → Option (List Char × List Char)
  | [] => none
  | c :: cs =>
    if c = sep then some ([], cs)
    else (splitFirstAux sep cs).map (fun ab => (c :: ab.1, ab.2))

/-- Embeds Python `s.split(sep, 1)` for a one-character separator. -/
def pySplit1 (s : String) (sep : Char) : List String :=
  match splitFirstAux sep s.data with
  | none => [s]
  | some ab => [String.mk ab.1, String.mk ab.2]

/-- Helper for `pySplitAll`: split on every occurrence of `sep`, with the
current chunk accumulated in reverse. -/
def splitAllAux (sep : Char) : List Char → List Char → List (List Char)
  | acc, [] => [acc.reverse]
  | acc, c :: cs =>
    if c = sep then acc.reverse :: splitAllAux sep [] cs
    else splitAllAux sep (c :: acc) cs

/-- Embeds Python `s.split(sep)` for a one-character separator. -/
def pySplitAll (s : String) (sep : Char) : List String :=
  (splitAllAux sep [] s.data).map String.mk

/-- Embeds Python `s.upper()` for the ASCII identifiers of the scripts. -/
def pyUpper (s : String) : String := String.mk (s.data.map Char.toUpper)

/-! ## Difference-mode allow-lists and per-row dispatch -/

/-- Embeds the `YIELD_OR_SPREAD` set of generate_html.py. -/
def YIELD_OR_SPREAD : List String :=
  ["DFF", "FEDFUNDS", "TB3MS", "DGS3MO", "DGS2", "DGS5", "DGS10", "DGS30",
   "GS2", "GS5", "GS10", "GS30",
   "AAA", "BAA", "BAMLH0A0HYM2", "BAMLC0A0CMEY", "BAMLC0A4CBBBEY",
   "MORTGAGE30US"]

/-- Embeds the `YIELD_SERIES` set of `build_summary_table` in
macro_report_full.py. -/
def YIELD_SERIES : List String :=
  ["FEDFUNDS", "TB3MS", "GS2", "GS5", "GS10", "GS30",
   "AAA", "BAA", "BAMLH0A0HYM2", "BAMLC0A0CMEY", "BAMLC0A4CBBB",
   "CAPE", "QUSR628BIS", "DDDM01USA156NWDB"]

/-- Embeds the per-row return computation of `generate_html_report` for a
non-empty series: `code = ident.split(":")[1]`, `diff_mode = code in
YIELD_OR_SPREAD`, `end_date = s.index[-1]`, then `compute_returns`.  `none`
models the IndexError raised when the identifier has no source tag, and the
empty-series row that never reaches this computation. -/
def htmlRowReturns (ident : String) (s : Series) : Option (List (String × Option ℚ)) :=
  match (pySplitAll ident ':')[1]?, s.getLast? with
  | some code, some last =>
    some (compute_returns s last.1 (YIELD_OR_SPREAD.contains code))
  | _, _ => none

/-- Embeds the per-row return computation of `build_summary_table` for a
non-empty series: `end_date = series.index[-1]`,
`use_diff = ident.upper() in YIELD_SERIES`, then `compute_returns_for_series`. -/
def summaryRowReturns (ident : String) (s : Series) : Option (List (String × Option ℚ)) :=
  s.getLast?.map (fun last =>
    compute_returns_for_series s last.1 (YIELD_SERIES.contains (pyUpper ident)))

/-! ## Series fetchers

Network I/O is represented by a provider environment: each provider call
either yields a raw date-indexed column (values possibly NaN, hence
`Option ℚ`) or fails with an exception message.  A fetch returns the series
together with its observable effects: the provider calls performed and the
warnings logged.  An uncaught Python exception is an `Except.error` result. -/

/-- Raw provider data: a date-indexed column, values possibly NaN. -/
abbrev RawFrame := List (Int × Option ℚ)

/-- The external data providers, as oracles: any exception thrown inside the
`try` block of a fetcher is an `Except.error`. -/
structure ProviderEnv where
  fred : String → Int → Int → Except String RawFrame
  stooq : String → Int → Int → Except String RawFrame
  cape : Except String RawFrame

/-- The observable outcome of one fetcher call: the returned series or an
uncaught exception, the provider calls made, and the warnings logged. -/
structure FetchOutcome where
  result : Except String Series
  net : List String
  warns : List String

/-- Embeds `df.sort_index()` as an insertion sort on timestamps. -/
def insertByKey (p : Int × Option ℚ) : RawFrame → RawFrame
  | [] => [p]
  | q :: qs => if p.1 ≤ q.1 then p :: q :: qs else q :: insertByKey p qs

/-- Sort a raw frame by timestamp (stable insertion sort). -/
def sortByKey (l : RawFrame) : RawFrame := l.foldr insertByKey []

/-- Embeds `s.loc[(s.index >= start) & (s.index <= end)].dropna()`: restrict
to the window, then drop NaN values.  The subsequent `ffill()` of
generate_html.py is the identity on a NaN-free series and is therefore
absorbed here. -/
def restrictDropna (start e : Int) (raw : RawFrame) : Series :=
  (raw.filter (fun p => decide (start ≤ p.1) && decide (p.1 ≤ e))).filterMap
    (fun p => p.2.map (fun v => (p.1, v)))

/-- Embeds `fetch_series(ident, start, end)` of generate_html.py.  The
`src, code = ident.split(":", 1)` unpacking happens before the `try` block:
an identifier without a colon raises an uncaught ValueError.  Provider
failures inside the `try` are swallowed: the fetcher warns and returns an
empty series. -/
def fetch_series (env : ProviderEnv) (ident : String) (start e : Int) : FetchOutcome :=
  match pySplit1 ident ':' with
  | [src, code] =>
    if src = "FRED" then
      match env.fred code start e with
      | Except.ok raw => ⟨Except.ok (restrictDropna start e raw), [code], []⟩
      | Except.error msg =>
        ⟨Except.ok [], [code], ["Fetch failed for " ++ ident ++ ": " ++ msg]⟩
    else if src = "STQ" then
      match env.stooq code start e with
      | Except.ok raw => ⟨Except.ok (restrictDropna start e (sortByKey raw)), [code], []⟩
      | Except.error msg =>
        ⟨Except.ok [], [code], ["Fetch failed for " ++ ident ++ ": " ++ msg]⟩
    else ⟨Except.ok [], [], []⟩
  | _ => ⟨Except.error "ValueError: not enough values to unpack", [], []⟩

/-- Embeds the `stooq_tickers` set of `fetch_series_any`. -/
def stooq_tickers : List String :=
  ["SPY", "IWB", "IWM", "IWF", "IWD", "IWO", "IWN",
   "XLB", "XLE", "XLF", "XLI", "XLK", "XLP", "XLU", "XLV", "XLY", "XLC",
   "XOP", "OIH", "VNQ", "IYR"]

/-- The provider consulted by `fetch_series_any` for a given identifier,
following the branch structure of the source. -/
def consultedFull (env : ProviderEnv) (identifier : String) (start e : Int) :
    Except String RawFrame :=
  let ident := pyUpper identifier
  if ident = "CAPE" then env.cape
  else if stooq_tickers.contains ident then env.stooq ident start e
  else env.fred ident start e

/-- Embeds `fetch_series_any(identifier, start, end)` of macro_report_full.py.
The whole fallible body sits inside the `try` block, so every provider
failure is swallowed: a warning is printed and an empty series returned.
The `cape` oracle stands for the outcome of `load_cape_series()` (already
sorted and forward-filled by that function); the stooq branch sorts its
frame (`df.sort_index()`). -/
def fetch_series_any (env : ProviderEnv) (identifier : String) (start e : Int) :
    FetchOutcome :=
  let ident := pyUpper identifier
  match consultedFull env identifier start e with
  | Except.ok raw =>
    let raw := if stooq_tickers.contains ident then sortByKey raw else raw
    ⟨Except.ok (restrictDropna start e raw), [ident], []⟩
  | Except.error msg =>
    ⟨Except.ok [], [ident], ["Warning: failed to fetch " ++ identifier ++ ": " ++ msg]⟩

/-- A provider environment whose calls all succeed with an empty frame. -/
def envEmpty : ProviderEnv :=
  ⟨fun _ _ _ => Except.ok [], fun _ _ _ => Except.ok [], Except.ok []⟩

/-- A provider environment whose calls all fail. -/
def envErr : ProviderEnv :=
  ⟨fun _ _ _ => Except.error "boom", fun _ _ _ => Except.error "boom",
   Except.error "boom"⟩

/-! ## Formatting and serialization of return values -/

/-- Fixed-point rendering of a rational with two decimals, embedding the
Python format `f"{x:.2f}"` (the tie-breaking of float rounding and the
thousands grouping of `f"{x:,.2f}"` are display details immaterial to the
claims). -/
def fmt2 (x : ℚ) : String :=
  let n : Int := round (x * 100)
  let sign := if n < 0 then "-" else ""
  let m := n.natAbs
  sign ++ toString (m / 100) ++ "." ++
    (if m % 100 < 10 then "0" else "") ++ toString (m % 100)

/-- Embeds `format_val(val)` of `generate_html_report`: a NaN renders as the
empty string, a positive value in a green span, a negative value in a red
span, zero as plain text. -/
def format_val (v : Option ℚ) : String :=
  match v with
  | none => ""
  | some x =>
    if 0 < x then "<span class=\"positive\">" ++ fmt2 x ++ "</span>"
    else if x < 0 then "<span class=\"negative\">" ++ fmt2 x ++ "</span>"
    else fmt2 x

/-- JSON scalar values as produced by the data.json serializer. -/
inductive JsonVal where
  | null
  | num (q : ℚ)
deriving DecidableEq

/-- Embeds `float(v) if not pd.isna(v) else None` in the JSON returns dict of
`generate_html_report`. -/
def jsonReturnEntry (v : Option ℚ) : JsonVal :=
  match v with
  | some q => JsonVal.num q
  | none => JsonVal.null

/-- Embeds the returns dict serialization
`{k: float(v) if not pd.isna(v) else None for k, v in ret.items()}`. -/
def jsonReturns (ret : List (String × Option ℚ)) : List (String × JsonVal) :=
  ret.map (fun kv => (kv.1, jsonReturnEntry kv.2))

/-- Embeds the cell formatting of `draw_full_section`
(macro_report_full.py): `f"{x:,.2f}" if pd.notnull(x) else 'NA'`. -/
def pdfTableCell (x : Option ℚ) : String :=
  match x with
  | some v => fmt2 v
  | none => "NA"

/-! ## Scheduler (macro_update_scheduler.py) -/

/-- A local wall-clock instant: weekday (Monday = 0, Sunday = 6) and time of
day in microseconds, the precision of `datetime.time` comparisons. -/
structure LocalTime where
  wd : Nat
  tod : Nat

/-- Microseconds of day for `datetime.time(h, m)`. -/
def dtimeUs (h m : Nat) : Nat := (h * 3600 + m * 60) * 1000000

/-- Embeds `within_market_hours(now)`: False on Saturday and Sunday, else
`dtime(6, 30) <= now.time() <= dtime(13, 0)`. -/
def within_market_hours (now : LocalTime) : Bool :=
  if 5 ≤ now.wd then false
  else decide (dtimeUs 6 30 ≤ now.tod) && decide (now.tod ≤ dtimeUs 13 0)

/-- What one polling iteration of the scheduler `main` loop does before its
fixed `time.sleep(600)`. -/
inductive SchedAction where
  | runReport
  | logSkip
deriving DecidableEq

/-- Embeds one iteration of the `while True` loop of the scheduler `main`:
run the report subprocess inside market hours, otherwise only log. -/
def schedulerIteration (now : LocalTime) : SchedAction :=
  if within_market_hours now then SchedAction.runReport else SchedAction.logSkip

/-! ## Fetch traces of the two report pipelines

For the memoization claim only the sequence of fetch calls matters.  A trace
is the list of identifiers passed to the fetcher, one entry per call, in
program order.  The HTML pipeline consults its `data` dict before fetching,
so its trace is independent of the fetch results; the full-report pipeline
refetches, and which later fetches happen depends on emptiness of earlier
results, so its trace takes a fetch oracle. -/

/-- The static `SECTIONS` table of generate_html.py: section names with their
identifier lists in insertion order. -/
def htmlSections : List (String × List String) :=
  [("Major Indices",
    ["FRED:SP500", "FRED:DJIA", "FRED:NASDAQCOM", "STQ:IWM", "STQ:SPY", "STQ:QQQ"]),
   ("Sectors (SPDR ETFs)",
    ["STQ:XLB", "STQ:XLE", "STQ:XLF", "STQ:XLI", "STQ:XLK", "STQ:XLP",
     "STQ:XLU", "STQ:XLV", "STQ:XLY", "STQ:XLC"]),
   ("Volatility & Credit",
    ["FRED:VIXCLS", "FRED:BAMLH0A0HYM2", "FRED:AAA", "FRED:BAA", "FRED:BAMLC0A0CMEY"]),
   ("Commodities & Energy",
    ["FRED:DCOILWTICO", "FRED:DCOILBRENTEU", "FRED:DHHNGSP",
     "FRED:GOLDAMGBD228NLBM", "STQ:XLE", "STQ:XOP"]),
   ("Interest Rates",
    ["FRED:DFF", "FRED:DGS3MO", "FRED:DGS2", "FRED:DGS5", "FRED:DGS10", "FRED:DGS30"]),
   ("Real Estate & Intl",
    ["STQ:VNQ", "STQ:IYR", "STQ:EFA", "STQ:EEM", "FRED:MORTGAGE30US"])]

/-- All identifiers requested by the HTML report, sections concatenated in
order (with cross-section repetitions kept). -/
def htmlRequestedIdents : List String := (htmlSections.map (fun sec => sec.2)).flatten

/-- Embeds the fetch loop of `generate_html_report`:
`if ident not in data: data[ident] = fetch_series(ident)`.  The resulting
list is the sequence of identifiers actually fetched, in order. -/
def htmlFetchTrace : List String :=
  htmlRequestedIdents.foldl (fun acc i => if acc.contains i then acc else acc ++ [i]) []

/-- The static section table of `build_full_report` in macro_report_full.py. -/
def fullSections : List (String × List String) :=
  [("Major Equity Indices", ["SP500", "IWB", "IWM"]),
   ("S&P Sector ETFs",
    ["XLB", "XLE", "XLF", "XLI", "XLK", "XLP", "XLU", "XLV", "XLY", "XLC"]),
   ("Growth vs Value", ["IWF", "IWD", "IWO", "IWN"]),
   ("Valuation Ratios", ["CAPE", "QUSR628BIS", "DDDM01USA156NWDB"]),
   ("Volatility & Credit", ["VIXCLS", "BAMLH0A0HYM2", "BAMLC0A0CMEY", "BAMLC0A4CBBB"]),
   ("Commodities & Energy Stocks",
    ["DCOILWTICO", "DCOILBRENTEU", "DHHNGSP", "XOP", "OIH"]),
   ("Interest Rates & Spreads",
    ["FEDFUNDS", "TB3MS", "GS2", "GS5", "GS10", "GS30", "AAA", "BAA"]),
   ("Real Estate & Mortgage", ["VNQ", "IYR", "CSUSHPINSA", "MORTGAGE30US"])]

/-- Day number of `datetime(1900, 1, 1)`, the broad start date used by the
full-history fetches of macro_report_full.py. -/
def histStart : Int := daysFromCivil 1900 1 1

/-- A fetch oracle for the trace model: the series `fetch_series_any`
returns for an identifier and a window.  Fetching is deterministic within a
run in this model, which is what the memoization claim is about. -/
abbrev FetchOracle := String → Int → Int → Series

/-- Page chunks of `max_series_per_page = 2`, as sliced by the page loop of
`build_full_report` (its `main` passes 2). -/
def chunks2 : List String → List (List String)
  | [] => []
  | [a] => [[a]]
  | a :: b :: rest => [a, b] :: chunks2 rest

/-- Fetch calls of `draw_full_section` for one page: each identifier on the
page is fetched for the display window and then for the full history. -/
def drawPageTrace (page : List String) : List String :=
  (page.map (fun i => [i, i])).flatten

/-- Fetch calls of `build_summary_table`: one fetch per identifier. -/
def summaryTableTrace (idents : List String) : List String := idents

/-- Identifiers whose fetch in `build_summary_table` is non-empty (the rows
of the summary table). -/
def summaryTableRows (env : FetchOracle) (start e : Int) (idents : List String) :
    List String :=
  idents.filter (fun i => !(env i start e).isEmpty)

/-- Fetch calls of `build_valuation_summary`: full history then the recent
window, for each identifier. -/
def valuationSummaryTrace (idents : List String) : List String :=
  (idents.map (fun i => [i, i])).flatten

/-- Identifiers kept by `build_valuation_summary` (both fetches non-empty). -/
def valuationSummaryRows (env : FetchOracle) (start e : Int) (idents : List String) :
    List String :=
  idents.filter (fun i => !(env i histStart e).isEmpty && !(env i start e).isEmpty)

/-- Fetch calls made by `build_full_report` for one section: the summary
table (or valuation summary), then — unless the summary came out empty — the
availability re-check of every identifier, then — unless no identifier was
available — the per-page draw fetches. -/
def sectionFetchTrace (env : FetchOracle) (start e : Int)
    (title : String) (idents : List String) : List String :=
  let sumTrace := if title = "Valuation Ratios" then valuationSummaryTrace idents
                  else summaryTableTrace idents
  let rows := if title = "Valuation Ratios" then valuationSummaryRows env start e idents
              else summaryTableRows env start e idents
  if rows.isEmpty then sumTrace
  else
    let availTrace := idents
    let avail := idents.filter (fun i => !(env i start e).isEmpty)
    if avail.isEmpty then sumTrace ++ availTrace
    else sumTrace ++ availTrace ++ ((chunks2 avail).map drawPageTrace).flatten

/-- The full fetch trace of one `build_full_report(start, e)` run. -/
def fullReportFetchTrace (env : FetchOracle) (start e : Int) : List String :=
  (fullSections.map (fun sec => sectionFetchTrace env start e sec.1 sec.2)).flatten

/-- A fetch oracle on which every fetch returns the same one-point series. -/
def oracleNonempty : FetchOracle := fun _ _ _ => [(0, 1)]

/-! ## Helper lemmas -/

/-- The specification notion used by the boundary-selection claims: `p` is an
observation of `s`, lies at or before `b`, and no observation of `s` at or
before `b` is later than `p`. -/
def IsLatestAtOrBefore (s : Series) (b : Int) (p : Obs) : Prop :=
  p ∈ s ∧ p.1 ≤ b ∧ ∀ q ∈ s, q.1 ≤ b → q.1 ≤ p.1

theorem le_getLast_of_pairwise {l : Series} {p q : Obs}
    (hs : l.Pairwise (fun a b => a.1 < b.1)) (hp : p ∈ l)
    (hq : l.getLast? = some q) : p.1 ≤ q.1 := by
  induction l with
  | nil => cases hp
  | cons a t ih =>
    cases t with
    | nil =>
      simp only [List.mem_singleton] at hp
      simp only [List.getLast?_singleton, Option.some.injEq] at hq
      subst hp; subst hq; exact le_refl _
    | cons b' t' =>
      have hq' : (b' :: t').getLast? = some q := by
        simpa using hq
      rcases List.mem_cons.mp hp with h | h
      · subst h
        have hqmem : q ∈ b' :: t' := List.mem_of_mem_getLast? hq'
        exact le_of_lt ((List.pairwise_cons.mp hs).1 q hqmem)
      · exact ih (List.pairwise_cons.mp hs).2 h hq'

theorem lastObsLE_some_latest {s : Series} {b : Int} {p : Obs}
    (hs : StrictlyTimed s) (h : lastObsLE s b = some p) :
    IsLatestAtOrBefore s b p := by
  have hmem : p ∈ s.filter (fun q => decide (q.1 ≤ b)) := List.mem_of_mem_getLast? h
  have hps : p ∈ s := List.mem_of_mem_filter hmem
  have hpb : p.1 ≤ b := by simpa using List.of_mem_filter hmem
  refine ⟨hps, hpb, ?_⟩
  intro q hq hqb
  have hsf : (s.filter (fun r => decide (r.1 ≤ b))).Pairwise (fun a c => a.1 < c.1) :=
    hs.sublist (List.filter_sublist s)
  exact le_getLast_of_pairwise hsf (List.mem_filter.mpr ⟨hq, by simpa using hqb⟩) h

theorem lastObsLE_eq_none_iff {s : Series} {b : Int} :
    lastObsLE s b = none ↔ ∀ q ∈ s, b < q.1 := by
  unfold lastObsLE
  rw [List.getLast?_eq_none_iff, List.filter_eq_nil_iff]
  constructor
  · intro h q hq
    have := h q hq
    simpa using lt_of_not_le (by simpa using this)
  · intro h q hq
    simp only [decide_eq_true_eq]
    exact not_le_of_lt (h q hq)

theorem mem_compute_returns_iff {s : Series} {e : Int} {d : Bool}
    {lbl : String} {v : Option ℚ} :
    (lbl, v) ∈ compute_returns s e d ↔
      ∃ b, (lbl, b) ∈ horizonsHtml e ∧
        v = if d then diff_return (lastVal s) (lastValLE s b)
            else pct_return (lastVal s) (lastValLE s b) := by
  unfold compute_returns
  rw [List.mem_map]
  constructor
  · rintro ⟨lb, hmem, heq⟩
    obtain ⟨h1, h2⟩ := Prod.mk.injEq .. ▸ heq
    exact ⟨lb.2, by simpa [← h1] using hmem, by cases d <;> simpa using h2.symm⟩
  · rintro ⟨b, hmem, heq⟩
    exact ⟨(lbl, b), hmem, by cases d <;> simp [heq]⟩

theorem mem_compute_returns_for_series_iff {s : Series} {e : Int} {d : Bool}
    {lbl : String} {v : Option ℚ} (hs : s ≠ []) :
    (lbl, v) ∈ compute_returns_for_series s e d ↔
      ∃ b, (lbl, b) ∈ horizonsFull e ∧ v = fullHorizonVal s e d b := by
  unfold compute_returns_for_series
  rw [if_neg (by simpa using hs), List.mem_map]
  constructor
  · rintro ⟨lb, hmem, heq⟩
    obtain ⟨h1, h2⟩ := Prod.mk.injEq .. ▸ heq
    exact ⟨lb.2, by simpa [← h1] using hmem, h2.symm⟩
  · rintro ⟨b, hmem, heq⟩
    exact ⟨(lbl, b), hmem, by simp [heq]⟩

theorem mem_compute_returns_for_series_empty {e : Int} {d : Bool}
    {lbl : String} {v : Option ℚ}
    (h : (lbl, v) ∈ compute_returns_for_series [] e d) : v = none := by
  unfold compute_returns_for_series at h
  simp only [List.isEmpty_nil, if_true, List.mem_map] at h
  obtain ⟨lb, _, heq⟩ := h
  exact ((Prod.mk.injEq .. ▸ heq).2).symm

/-! ## Claims -/

/-- C1 (amended): in the HTML report calculator `compute_returns`, the
boundary value of every horizon is the value of the last observation with
timestamp at or before that horizon boundary — it is the latest such
observation when one exists, it is absent exactly when no observation lies
at or before the boundary, and an absent boundary value makes the horizon
return undefined.  The full-report calculator `compute_returns_for_series`
instead uses the first observation inside `[boundary, end]`; see the
counterexample. -/
theorem C1_boundary_selection :
    (∀ (s : Series) (b : Int) (p : Obs), StrictlyTimed s →
      lastObsLE s b = some p → IsLatestAtOrBefore s b p) ∧
    (∀ (s : Series) (b : Int), lastObsLE s b = none ↔ ∀ q ∈ s, b < q.1) ∧
    (∀ (s : Series) (e : Int) (d : Bool) (lbl : String) (b : Int),
      (lbl, b) ∈ horizonsHtml e →
      (lbl, if d then diff_return (lastVal s) (lastValLE s b)
            else pct_return (lastVal s) (lastValLE s b)) ∈ compute_returns s e d) ∧
    (∀ (s : Series) (e : Int) (d : Bool) (lbl : String) (b : Int),
      (lbl, b) ∈ horizonsHtml e → lastValLE s b = none →
      (lbl, none) ∈ compute_returns s e d) := by
  refine ⟨fun s b p hs h => lastObsLE_some_latest hs h,
          fun s b => lastObsLE_eq_none_iff, ?_, ?_⟩
  · intro s e d lbl b hmem
    exact mem_compute_returns_iff.mpr ⟨b, hmem, rfl⟩
  · intro s e d lbl b hmem hnone
    refine mem_compute_returns_iff.mpr ⟨b, hmem, ?_⟩
    cases d <;> cases hv : lastVal s <;>
      simp [pct_return, diff_return, hnone, hv]

/-- Witness for C1: the boundary-selection facts evaluated on the concrete
series [(0, 5), (10, 7)] with end date 10 and the 1M boundary -20. -/
theorem C1_boundary_selection_witness :
    IsLatestAtOrBefore [((0:Int), (5:ℚ)), (10, 7)] 6 (0, 5) ∧
    ("1M", pct_return (lastVal [((0:Int), (5:ℚ)), (10, 7)])
      (lastValLE [((0:Int), (5:ℚ)), (10, 7)] (-20))) ∈
      compute_returns [((0:Int), (5:ℚ)), (10, 7)] 10 false ∧
    ("1M", none) ∈ compute_returns [((0:Int), (5:ℚ)), (10, 7)] 10 false := by
  refine ⟨C1_boundary_selection.1 _ 6 (0, 5) (by decide) (by decide), ?_, ?_⟩
  · have h := C1_boundary_selection.2.2.1 [((0:Int), (5:ℚ)), (10, 7)] 10 false "1M" (-20)
      (by decide)
    simpa using h
  · exact C1_boundary_selection.2.2.2 [((0:Int), (5:ℚ)), (10, 7)] 10 false "1M" (-20)
      (by decide) (by decide)

/-- Counterexample to C1 as stated: on the one-observation series
[(day 5, 10)] with end date 5, no observation lies at or before any horizon
boundary (shown for the YTD boundary), so the claim requires every horizon
return to be undefined — the HTML calculator indeed yields all-undefined,
but `compute_returns_for_series` yields the defined value 0 for every
horizon, because it selects the first observation at or after the boundary
instead of the last one at or before it. -/
theorem C1_counterexample :
    compute_returns_for_series [((5:Int), (10:ℚ))] 5 false =
      [("YTD", some 0), ("1M", some 0), ("3M", some 0), ("1Y", some 0),
       ("3Y", some 0), ("5Y", some 0), ("10Y", some 0)] ∧
    lastObsLE [((5:Int), (10:ℚ))] (janFirst 5) = none ∧
    compute_returns [((5:Int), (10:ℚ))] 5 false =
      [("YTD", none), ("1M", none), ("3M", none), ("1Y", none),
       ("3Y", none), ("5Y", none)] := by
  refine ⟨?_, by decide, ?_⟩
  · norm_num [compute_returns_for_series, horizonsFull, fullHorizonVal,
      firstValInWindow, lastVal, List.filter,
      show janFirst 5 = 0 from by decide]
  · norm_num [compute_returns, horizonsHtml, lastValLE, lastObsLE, lastVal,
      pct_return, List.filter, show janFirst 5 = 0 from by decide]

/-- C2 (code bug): both return calculators use the last observation of the
whole series as the "current" value, even when it lies after the end date,
although the latest observation at or before the end date 10050 has value
10 — the docstring of `compute_returns_for_series` states that values
beyond the end date are ignored, yet on the series
[(10000, 10), (10100, 20)] with end date 10050 every defined horizon
return is 100, which uses the value 20 of the observation at 10100 > 10050
as the current value (the claimed and documented behaviour would give 0). -/
theorem C2_current_uses_last_overall :
    lastValLE [((10000:Int), (10:ℚ)), (10100, 20)] 10050 = some 10 ∧
    compute_returns [((10000:Int), (10:ℚ)), (10100, 20)] 10050 false =
      [("YTD", none), ("1M", some 100), ("3M", none), ("1Y", none),
       ("3Y", none), ("5Y", none)] ∧
    compute_returns_for_series [((10000:Int), (10:ℚ)), (10100, 20)] 10050 false =
      [("YTD", some 100), ("1M", none), ("3M", some 100), ("1Y", some 100),
       ("3Y", some 100), ("5Y", some 100), ("10Y", some 100)] := by
  refine ⟨by decide, ?_, ?_⟩
  · norm_num [compute_returns, horizonsHtml, lastValLE, lastObsLE, lastVal,
      pct_return, List.filter, show janFirst 10050 = 9862 from by decide]
  · norm_num [compute_returns_for_series, horizonsFull, fullHorizonVal,
      firstValInWindow, lastVal, List.filter,
      show janFirst 10050 = 9862 from by decide]

/-! Splitting lemmas for the fetcher claims. -/

theorem splitFirstAux_eq_some_of_mem {sep : Char} {l : List Char} (h : sep ∈ l) :
    ∃ ab, splitFirstAux sep l = some ab := by
  induction l with
  | nil => cases h
  | cons c cs ih =>
    by_cases hc : c = sep
    · exact ⟨([], cs), by simp [splitFirstAux, hc]⟩
    · rcases List.mem_cons.mp h with h1 | h1
      · exact absurd h1.symm hc
      · obtain ⟨ab, hab⟩ := ih h1
        exact ⟨(c :: ab.1, ab.2), by simp [splitFirstAux, hc, hab]⟩

theorem splitFirstAux_append {sep : Char} {b : List Char} :
    ∀ {a : List Char}, sep ∉ a → splitFirstAux sep (a ++ sep :: b) = some (a, b) := by
  intro a
  induction a with
  | nil => intro _; simp [splitFirstAux]
  | cons c cs ih =>
    intro h
    have hc : ¬(c = sep) := fun hh => h (hh ▸ List.mem_cons_self c cs)
    have hcs : sep ∉ cs := fun hm => h (List.mem_cons_of_mem c hm)
    simp [splitFirstAux, hc, ih hcs]

theorem pySplit1_append {src code : String} (h : ':' ∉ src.data) :
    pySplit1 (src ++ ":" ++ code) ':' = [src, code] := by
  have hdata : (src ++ ":" ++ code).data = src.data ++ ':' :: code.data := by
    rw [String.data_append, String.data_append]
    rw [List.append_assoc]
    rfl
  unfold pySplit1
  rw [hdata, splitFirstAux_append h]

/-- C3 (amended): the HTML fetcher `fetch_series` never raises on any
identifier containing the source-tag separator, and on a provider failure
in either branch it returns an empty series and logs a warning; the
full-report fetcher `fetch_series_any` never raises on any identifier at
all, and likewise swallows every provider failure into an empty series plus
a warning.  (An identifier without a colon makes `fetch_series` raise; see
the counterexample.) -/
theorem C3_fetch_failures_swallowed :
    (∀ (env : ProviderEnv) (ident : String) (s e : Int), ':' ∈ ident.data →
      ∃ ser, (fetch_series env ident s e).result = Except.ok ser) ∧
    (∀ (env : ProviderEnv) (ident src code : String) (s e : Int) (msg : String),
      pySplit1 ident ':' = [src, code] → src = "FRED" →
      env.fred code s e = Except.error msg →
      (fetch_series env ident s e).result = Except.ok [] ∧
      (fetch_series env ident s e).warns ≠ []) ∧
    (∀ (env : ProviderEnv) (ident src code : String) (s e : Int) (msg : String),
      pySplit1 ident ':' = [src, code] → src = "STQ" →
      env.stooq code s e = Except.error msg →
      (fetch_series env ident s e).result = Except.ok [] ∧
      (fetch_series env ident s e).warns ≠ []) ∧
    (∀ (env : ProviderEnv) (ident : String) (s e : Int),
      ∃ ser, (fetch_series_any env ident s e).result = Except.ok ser) ∧
    (∀ (env : ProviderEnv) (ident : String) (s e : Int) (msg : String),
      consultedFull env ident s e = Except.error msg →
      (fetch_series_any env ident s e).result = Except.ok [] ∧
      (fetch_series_any env ident s e).warns ≠ []) := by
  refine ⟨?_, ?_, ?_, ?_, ?_⟩
  · intro env ident s e h
    obtain ⟨ab, hab⟩ := splitFirstAux_eq_some_of_mem h
    simp only [fetch_series, pySplit1, hab]
    split_ifs with h1 h2
    · cases henv : env.fred (String.mk ab.2) s e <;> simp [henv]
    · cases henv : env.stooq (String.mk ab.2) s e <;> simp [henv]
    · exact ⟨[], rfl⟩
  · intro env ident src code s e msg hsplit hsrc herr
    subst hsrc
    simp [fetch_series, hsplit, herr]
  · intro env ident src code s e msg hsplit hsrc herr
    subst hsrc
    simp [fetch_series, hsplit, herr]
  · intro env ident s e
    cases h : consultedFull env ident s e <;> simp [fetch_series_any, h]
  · intro env ident s e msg h
    simp [fetch_series_any, h]

/-- Witness for C3: the swallow behaviour evaluated against the concrete
all-failing provider environment. -/
theorem C3_fetch_failures_swallowed_witness :
    (∃ ser, (fetch_series envErr "FRED:X" 0 10).result = Except.ok ser) ∧
    ((fetch_series envErr "FRED:X" 0 10).result = Except.ok [] ∧
      (fetch_series envErr "FRED:X" 0 10).warns ≠ []) ∧
    ((fetch_series envErr "STQ:X" 0 10).result = Except.ok [] ∧
      (fetch_series envErr "STQ:X" 0 10).warns ≠ []) ∧
    (∃ ser, (fetch_series_any envErr "CAPE" 0 10).result = Except.ok ser) ∧
    ((fetch_series_any envErr "CAPE" 0 10).result = Except.ok [] ∧
      (fetch_series_any envErr "CAPE" 0 10).warns ≠ []) :=
  ⟨C3_fetch_failures_swallowed.1 envErr "FRED:X" 0 10 (by decide),
   C3_fetch_failures_swallowed.2.1 envErr "FRED:X" "FRED" "X" 0 10 "boom"
     (by decide) rfl rfl,
   C3_fetch_failures_swallowed.2.2.1 envErr "STQ:X" "STQ" "X" 0 10 "boom"
     (by decide) rfl rfl,
   C3_fetch_failures_swallowed.2.2.2.1 envErr "CAPE" 0 10,
   C3_fetch_failures_swallowed.2.2.2.2 envErr "CAPE" 0 10 "boom" rfl⟩

/-- Counterexample to C3 as stated: `fetch_series` raises an uncaught
ValueError on an identifier without a colon — the tuple unpacking
`src, code = ident.split(":", 1)` happens before the `try` block. -/
theorem C3_counterexample :
    (fetch_series envEmpty "SP500" 0 100).result =
      Except.error "ValueError: not enough values to unpack" := by
  simp [fetch_series, show pySplit1 "SP500" ':' = ["SP500"] from by decide]

/-- C4: a percentage return with zero boundary value is undefined, as is one
with an undefined operand, in both calculators: `pct_return` yields NaN on a
zero denominator or NaN operand, every defined `pct_return` value comes from
a nonzero denominator via the exact formula, and every defined percentage
entry of `compute_returns_for_series` likewise has a nonzero boundary value
— no division by zero is ever performed. -/
theorem C4_zero_denominator_undefined :
    (∀ a : Option ℚ, pct_return a (some 0) = none) ∧
    (∀ b : Option ℚ, pct_return none b = none) ∧
    (∀ a : Option ℚ, pct_return a none = none) ∧
    (∀ (a b : Option ℚ) (r : ℚ), pct_return a b = some r →
      ∃ x y, a = some x ∧ b = some y ∧ y ≠ 0 ∧ r = (x / y - 1) * 100) ∧
    (∀ (s : Series) (e : Int) (lbl : String) (r : ℚ),
      (lbl, some r) ∈ compute_returns_for_series s e false →
      ∃ b y, (lbl, b) ∈ horizonsFull e ∧ firstValInWindow s b e = some y ∧
        y ≠ 0 ∧ r = ((lastVal s).getD 0 / y - 1) * 100) := by
  refine ⟨?_, ?_, ?_, ?_, ?_⟩
  · intro a; cases a <;> simp [pct_return]
  · intro b; cases b <;> rfl
  · intro a; cases a <;> rfl
  · intro a b r h
    cases a with
    | none => cases h
    | some x =>
      cases b with
      | none => cases h
      | some y =>
        by_cases hy : y = 0
        · simp [pct_return, hy] at h
        · simp only [pct_return, if_neg hy, Option.some.injEq] at h
          exact ⟨x, y, rfl, rfl, hy, h.symm⟩
  · intro s e lbl r h
    cases s with
    | nil => exact absurd (mem_compute_returns_for_series_empty h) (by simp)
    | cons p t =>
      obtain ⟨b, hb, heq⟩ := (mem_compute_returns_for_series_iff (by simp)).mp h
      cases hfv : firstValInWindow (p :: t) b e with
      | none => rw [fullHorizonVal, hfv] at heq; cases heq
      | some sv =>
        rw [fullHorizonVal, hfv] at heq
        by_cases hy : sv = 0
        · simp [hy] at heq
        · simp only [hy, decide_eq_false, Bool.not_false, Bool.true_and,
            Option.some.injEq] at heq
          refine ⟨b, sv, hb, hfv, hy, ?_⟩
          simpa [hy] using heq

/-- Witness for C4: the defined-percentage characterizations applied to
concrete inputs with boundary value 2. -/
theorem C4_zero_denominator_undefined_witness :
    (∃ x y, some (3:ℚ) = some x ∧ some (2:ℚ) = some y ∧ y ≠ 0 ∧
      (50:ℚ) = (x / y - 1) * 100) ∧
    (∃ b y, ("1M", b) ∈ horizonsFull 10 ∧
      firstValInWindow [((0:Int), (2:ℚ)), (10, 3)] b 10 = some y ∧
      y ≠ 0 ∧ (50:ℚ) = ((lastVal [((0:Int), (2:ℚ)), (10, 3)]).getD 0 / y - 1) * 100) :=
  ⟨C4_zero_denominator_undefined.2.2.2.1 (some 3) (some 2) 50 (by norm_num [pct_return]),
   C4_zero_denominator_undefined.2.2.2.2 [((0:Int), (2:ℚ)), (10, 3)] 10 "1M" 50
     (by norm_num [compute_returns_for_series, horizonsFull, fullHorizonVal,
       firstValInWindow, lastVal, List.filter,
       show janFirst 10 = 0 from by decide])⟩

/-- C5: normalization rescales a non-empty series with nonzero first value
`v` pointwise to `value / v * 100`, making the first output value exactly
100; with first value zero, every output value is undefined (no division is
performed and no NaN is treated as numeric); the two implementations
`normalized_100` and `compute_normalized` agree on every input. -/
theorem C5_normalization :
    (∀ (s : Series) (t : Int) (v : ℚ), s.head? = some (t, v) → v ≠ 0 →
      normalized_100 s = s.map (fun q => (q.1, some (q.2 / v * 100))) ∧
      (normalized_100 s).head? = some (t, some 100)) ∧
    (∀ (s : Series) (t : Int) (v : ℚ), s.head? = some (t, v) → v = 0 →
      normalized_100 s = s.map (fun q => (q.1, none))) ∧
    (∀ s : Series, compute_normalized s = normalized_100 s) := by
  refine ⟨?_, ?_, ?_⟩
  · intro s t v h hv
    cases s with
    | nil => cases h
    | cons p rest =>
      have hp : p = (t, v) := by simpa using h
      subst hp
      constructor
      · simp [normalized_100, hv]
      · simp [normalized_100, hv, div_self hv]
  · intro s t v h hv
    cases s with
    | nil => cases h
    | cons p rest =>
      have hp : p = (t, v) := by simpa using h
      subst hp
      subst hv
      simp [normalized_100]
  · intro s
    cases s with
    | nil => rfl
    | cons p rest => cases p; rfl

/-- Witness for C5: normalization of [(0, 4), (1, 6)] (nonzero base) and of
[(0, 0), (1, 6)] (zero base). -/
theorem C5_normalization_witness :
    (normalized_100 [((0:Int), (4:ℚ)), (1, 6)] =
      ([((0:Int), (4:ℚ)), (1, 6)] : Series).map (fun q => (q.1, some (q.2 / 4 * 100))) ∧
     (normalized_100 [((0:Int), (4:ℚ)), (1, 6)]).head? = some (0, some 100)) ∧
    normalized_100 [((0:Int), (0:ℚ)), (1, 6)] =
      ([((0:Int), (0:ℚ)), (1, 6)] : Series).map (fun q => (q.1, none)) :=
  ⟨C5_normalization.1 _ 0 4 rfl (by decide), C5_normalization.2.1 _ 0 0 rfl rfl⟩

/-- C6: series whose identifier code is in the fixed yield/spread allow-list
use difference semantics, all other series use percentage semantics: the
HTML row dispatch selects difference mode exactly for codes in
`YIELD_OR_SPREAD` and the summary-table dispatch exactly for upper-cased
identifiers in `YIELD_SERIES`; every defined difference-mode value is the
exact subtraction `current - boundary` and every defined percentage-mode
value is `(current / boundary - 1) * 100`; the yield example
[(t0, 2.50), (t1, 2.75)] yields the YTD difference 0.25, where the
percentage formula would give 10. -/
theorem C6_difference_semantics_dispatch :
    (∀ (ident code : String) (s : Series) (last : Obs),
      (pySplitAll ident ':')[1]? = some code → s.getLast? = some last →
      code ∈ YIELD_OR_SPREAD →
      htmlRowReturns ident s = some (compute_returns s last.1 true)) ∧
    (∀ (ident code : String) (s : Series) (last : Obs),
      (pySplitAll ident ':')[1]? = some code → s.getLast? = some last →
      code ∉ YIELD_OR_SPREAD →
      htmlRowReturns ident s = some (compute_returns s last.1 false)) ∧
    (∀ (s : Series) (e : Int) (lbl : String) (r : ℚ),
      (lbl, some r) ∈ compute_returns s e true →
      ∃ x y b, lastVal s = some x ∧ (lbl, b) ∈ horizonsHtml e ∧
        lastValLE s b = some y ∧ r = x - y) ∧
    (∀ (s : Series) (e : Int) (lbl : String) (r : ℚ),
      (lbl, some r) ∈ compute_returns s e false →
      ∃ x y b, lastVal s = some x ∧ (lbl, b) ∈ horizonsHtml e ∧
        lastValLE s b = some y ∧ y ≠ 0 ∧ r = (x / y - 1) * 100) ∧
    (∀ (ident : String) (s : Series) (last : Obs), s.getLast? = some last →
      summaryRowReturns ident s =
        some (compute_returns_for_series s last.1
          (YIELD_SERIES.contains (pyUpper ident)))) ∧
    (htmlRowReturns "FRED:DGS10" [((0:Int), 5/2), (10, 11/4)] =
      some [("YTD", some (1/4)), ("1M", none), ("3M", none), ("1Y", none),
            ("3Y", none), ("5Y", none)] ∧
     pct_return (some (11/4)) (some (5/2)) = some 10) := by
  refine ⟨?_, ?_, ?_, ?_, ?_, ?_, ?_⟩
  · intro ident code s last hsplit hlast hmem
    simp [htmlRowReturns, hsplit, hlast, hmem]
  · intro ident code s last hsplit hlast hmem
    simp [htmlRowReturns, hsplit, hlast, hmem]
  · intro s e lbl r h
    obtain ⟨b, hb, heq⟩ := mem_compute_returns_iff.mp h
    simp only [if_true] at heq
    cases hx : lastVal s with
    | none => rw [hx] at heq; cases hy : lastValLE s b <;> rw [hy] at heq <;> cases heq
    | some x =>
      cases hy : lastValLE s b with
      | none => rw [hx, hy] at heq; cases heq
      | some y =>
        rw [hx, hy] at heq
        simp only [diff_return, Option.some.injEq] at heq
        exact ⟨x, y, b, rfl, hb, hy, heq⟩
  · intro s e lbl r h
    obtain ⟨b, hb, heq⟩ := mem_compute_returns_iff.mp h
    simp only [Bool.false_eq_true, if_false] at heq
    cases hx : lastVal s with
    | none => rw [hx] at heq; cases hy : lastValLE s b <;> rw [hy] at heq <;> cases heq
    | some x =>
      cases hy : lastValLE s b with
      | none => rw [hx, hy] at heq; cases heq
      | some y =>
        rw [hx, hy] at heq
        by_cases hz : y = 0
        · simp [pct_return, hz] at heq
        · simp only [pct_return, if_neg hz, Option.some.injEq] at heq
          exact ⟨x, y, b, rfl, hb, hy, hz, heq⟩
  · intro ident s last hlast
    simp [summaryRowReturns, hlast]
  · norm_num [htmlRowReturns, compute_returns, horizonsHtml, lastValLE, lastObsLE,
      lastVal, pct_return, diff_return, List.filter,
      show pySplitAll "FRED:DGS10" ':' = ["FRED", "DGS10"] from by decide,
      show ("DGS10" ∈ YIELD_OR_SPREAD) from by decide,
      show janFirst 10 = 0 from by decide]
  · norm_num [pct_return]

/-- Witness for C6: the dispatch and the exact-subtraction form evaluated on
concrete yield and non-yield rows. -/
theorem C6_difference_semantics_dispatch_witness :
    (htmlRowReturns "FRED:DGS10" [((0:Int), (2:ℚ)), (10, 3)] =
      some (compute_returns [((0:Int), (2:ℚ)), (10, 3)] 10 true)) ∧
    (htmlRowReturns "FRED:SP500" [((0:Int), (2:ℚ)), (10, 3)] =
      some (compute_returns [((0:Int), (2:ℚ)), (10, 3)] 10 false)) ∧
    (∃ x y b, lastVal [((0:Int), (2:ℚ)), (10, 3)] = some x ∧
      ("YTD", b) ∈ horizonsHtml 10 ∧
      lastValLE [((0:Int), (2:ℚ)), (10, 3)] b = some y ∧ (1:ℚ) = x - y) ∧
    (∃ x y b, lastVal [((0:Int), (2:ℚ)), (10, 3)] = some x ∧
      ("YTD", b) ∈ horizonsHtml 10 ∧
      lastValLE [((0:Int), (2:ℚ)), (10, 3)] b = some y ∧ y ≠ 0 ∧
      (50:ℚ) = (x / y - 1) * 100) ∧
    (summaryRowReturns "gs10" [((0:Int), (2:ℚ)), (10, 3)] =
      some (compute_returns_for_series [((0:Int), (2:ℚ)), (10, 3)] 10
        (YIELD_SERIES.contains (pyUpper "gs10")))) :=
  ⟨C6_difference_semantics_dispatch.1 "FRED:DGS10" "DGS10" _ (10, 3)
     (by decide) (by decide) (by decide),
   C6_difference_semantics_dispatch.2.1 "FRED:SP500" "SP500" _ (10, 3)
     (by decide) (by decide) (by decide),
   C6_difference_semantics_dispatch.2.2.1 [((0:Int), (2:ℚ)), (10, 3)] 10 "YTD" 1
     (by norm_num [compute_returns, horizonsHtml, lastValLE, lastObsLE, lastVal,
       diff_return, List.filter, show janFirst 10 = 0 from by decide]),
   C6_difference_semantics_dispatch.2.2.2.1 [((0:Int), (2:ℚ)), (10, 3)] 10 "YTD" 50
     (by norm_num [compute_returns, horizonsHtml, lastValLE, lastObsLE, lastVal,
       pct_return, List.filter, show janFirst 10 = 0 from by decide]),
   C6_difference_semantics_dispatch.2.2.2.2.1 "gs10" _ (10, 3) (by decide)⟩

/-- C7 (amended): the HTML dashboard run fetches each identifier at most
once — its fetch trace has no duplicates even though "STQ:XLE" is requested
by two different sections — while the full-report run performs no
memoization: with every fetch returning data, "SP500" is fetched four times
in one run (summary table, availability re-check, and twice while drawing
its chart page). -/
theorem C7_fetch_memoization :
    htmlFetchTrace.Nodup ∧
    (∀ ident : String, htmlFetchTrace.count ident ≤ 1) ∧
    htmlRequestedIdents.count "STQ:XLE" = 2 ∧
    htmlFetchTrace.count "STQ:XLE" = 1 ∧
    (fullReportFetchTrace oracleNonempty 0 100).count "SP500" = 4 := by
  refine ⟨by decide, ?_, by decide, by decide, by decide⟩
  intro ident
  exact List.nodup_iff_count_le_one.mp (by decide) ident

/-- Counterexample to C7 as stated: in a full-report run where every fetch
returns data, the underlying fetch for "SP500" is performed more than once. -/
theorem C7_counterexample :
    ¬ (fullReportFetchTrace oracleNonempty 0 100).count "SP500" ≤ 1 := by
  decide

/-! Formatting helper lemmas for C8. -/

theorem dot_mem_fmt2 (q : ℚ) : '.' ∈ (fmt2 q).data := by
  unfold fmt2
  simp only [String.data_append]
  simp [List.mem_append, show ("." : String).data = ['.'] from rfl]

theorem format_val_some_ne_empty (q : ℚ) : format_val (some q) ≠ "" := by
  have hdot : '.' ∈ (format_val (some q)).data := by
    have heq : format_val (some q) =
        if 0 < q then "<span class=\"positive\">" ++ fmt2 q ++ "</span>"
        else if q < 0 then "<span class=\"negative\">" ++ fmt2 q ++ "</span>"
        else fmt2 q := rfl
    rw [heq]
    split_ifs <;> simp [String.data_append, dot_mem_fmt2 q]
  intro h
  rw [h] at hdot
  cases hdot

theorem pdfTableCell_some_ne_NA (q : ℚ) : pdfTableCell (some q) ≠ "NA" := by
  intro h
  have hdot : '.' ∈ (pdfTableCell (some q)).data := dot_mem_fmt2 q
  rw [h] at hdot
  simp at hdot

/-- C8 (amended): an undefined return value is propagated, never coerced to
zero: JSON serializes it as an explicit null (distinct from the number 0)
while defined values serialize as their numbers, the PDF summary table
renders it as the explicit marker "NA" which no defined value can produce —
but the per-horizon HTML table cell renders an undefined value as the empty
string (a blank cell, not an explicit "no data" marker), while defined
values always render non-empty. -/
theorem C8_undefined_propagation :
    format_val none = "" ∧
    (∀ q : ℚ, format_val (some q) ≠ "") ∧
    format_val none ≠ format_val (some 0) ∧
    jsonReturnEntry none = JsonVal.null ∧
    (∀ q : ℚ, jsonReturnEntry (some q) = JsonVal.num q) ∧
    JsonVal.null ≠ JsonVal.num 0 ∧
    (∀ (ret : List (String × Option ℚ)) (lbl : String) (v : Option ℚ),
      (lbl, v) ∈ ret → (lbl, jsonReturnEntry v) ∈ jsonReturns ret) ∧
    pdfTableCell none = "NA" ∧
    (∀ q : ℚ, pdfTableCell (some q) ≠ "NA") := by
  refine ⟨rfl, format_val_some_ne_empty, ?_, rfl, fun q => rfl, by decide, ?_, rfl,
    pdfTableCell_some_ne_NA⟩
  · intro h
    exact format_val_some_ne_empty 0 h.symm
  · intro ret lbl v hmem
    exact List.mem_map.mpr ⟨(lbl, v), hmem, rfl⟩

/-- Witness for C8: serialization propagates the undefined YTD entry of a
concrete returns table as an explicit null. -/
theorem C8_undefined_propagation_witness :
    ("YTD", jsonReturnEntry none) ∈ jsonReturns [("YTD", none), ("1M", some 3)] :=
  C8_undefined_propagation.2.2.2.2.2.2.1 [("YTD", none), ("1M", some 3)] "YTD" none
    (by simp)

/-- Counterexample to C8 as stated: the HTML cell formatter renders an
undefined return value as the empty string — a silently blank cell, not an
explicit "no data" marker. -/
theorem C8_counterexample : format_val none = "" := rfl

/-- C9: one polling iteration of the scheduler launches the report
subprocess exactly when the current local time is a weekday (Monday to
Friday) and the time of day lies within the fixed trading-hours window
6:30 AM to 1:00 PM inclusive; on every other instant the iteration only
logs and sleeps. -/
theorem C9_scheduler_window :
    ∀ now : LocalTime,
      (schedulerIteration now = SchedAction.runReport ↔
        now.wd ≤ 4 ∧ dtimeUs 6 30 ≤ now.tod ∧ now.tod ≤ dtimeUs 13 0) ∧
      (schedulerIteration now = SchedAction.logSkip ↔
        ¬(now.wd ≤ 4 ∧ dtimeUs 6 30 ≤ now.tod ∧ now.tod ≤ dtimeUs 13 0)) := by
  intro now
  by_cases hw : 5 ≤ now.wd
  · constructor
    · simp [schedulerIteration, within_market_hours, hw]
      omega
    · simp [schedulerIteration, within_market_hours, hw]
      omega
  · constructor
    · simp [schedulerIteration, within_market_hours, hw]
      omega
    · simp [schedulerIteration, within_market_hours, hw]
      omega

/-- C10: when the source tag of an identifier of the form SRC:CODE is
neither FRED nor STQ, `fetch_series` returns an empty series with no
provider call and no warning. -/
theorem C10_unknown_source_tag :
    ∀ (env : ProviderEnv) (src code : String) (s e : Int),
      ':' ∉ src.data → src ≠ "FRED" → src ≠ "STQ" →
      fetch_series env (src ++ ":" ++ code) s e = ⟨Except.ok [], [], []⟩ := by
  intro env src code s e hc h1 h2
  simp [fetch_series, pySplit1_append hc, h1, h2]

/-- Witness for C10: the unknown source tag "ABC" yields the empty outcome
with no provider call and no warning, even against an all-failing provider
environment. -/
theorem C10_unknown_source_tag_witness :
    fetch_series envErr ("ABC" ++ ":" ++ "X") 0 1 = ⟨Except.ok [], [], []⟩ :=
  C10_unknown_source_tag envErr "ABC" "X" 0 1 (by decide) (by decide) (by decide)

end GMM
